import Mathlib

/-!
Verification of the node-agent reconciliation core (kubelet) of this
repository against its specification.

The repository excerpt contains the kubelet's test suite
(`pkg/kubelet/kubelet_test.go`) but not `kubelet.go` itself, so the engine
(`SyncPods` / `syncPod`), the container-naming codec, the host-port
admission filter, the port-binding construction and the thin information
endpoints are modelled from the specification, with the test suite fixing
the observable behavior (runtime call sequences, created names, stopped
ids).  The container runtime is modelled as an explicit state
(`DockerState`) whose operations record a call trace, exactly as the fake
runtime client used by the tests does; the injected capabilities (health
checker, HTTP client, command runner, stats provider) are modelled as
function-valued fields of `Caps`.
-/

/-! ## Data model (spec section 3) -/

/-- A declared container port: container-port, optional host-port
(0 when absent), optional host-IP and protocol string. -/
structure Port where
  containerPort : Nat
  hostPort : Nat
  hostIP : String
  protocol : String
deriving DecidableEq, Repr

/-- An environment entry (ordered name/value list in the spec). -/
structure EnvVar where
  name : String
  value : String
deriving DecidableEq, Repr

/-- `HTTPGet(host, port, path)` lifecycle action. -/
structure HTTPGetAction where
  host : String
  port : Nat
  path : String
deriving DecidableEq, Repr

/-- `Exec(command[])` lifecycle action. -/
structure ExecAction where
  command : List String
deriving DecidableEq, Repr

/-- A lifecycle handler: at most one of HTTPGet / Exec is set; a handler
with neither set is a no-op. -/
structure Handler where
  httpGet : Option HTTPGetAction
  exec : Option ExecAction
deriving DecidableEq, Repr

/-- Lifecycle block of a container spec (PostStart hook). -/
structure Lifecycle where
  postStart : Option Handler
deriving DecidableEq, Repr

/-- A liveness probe; only its declared type matters to the model (probes
without an implementation for their type default to Unknown). -/
structure LivenessProbe where
  type : String
deriving DecidableEq, Repr

/-- A container spec: name, image reference, environment, exposed ports,
optional lifecycle and optional liveness probe. -/
structure Container where
  name : String
  image : String
  env : List EnvVar
  ports : List Port
  lifecycle : Option Lifecycle
  livenessProbe : Option LivenessProbe
deriving DecidableEq, Repr

/-- A manifest: id, uuid and the ordered list of container specs. -/
structure ContainerManifest where
  id : String
  uuid : String
  containers : List Container
deriving DecidableEq, Repr

/-- A pod: name, namespace and manifest.  (`nspace` stands for the source
field `Namespace`, which is a reserved word in Lean.) -/
structure Pod where
  name : String
  nspace : String
  manifest : ContainerManifest
deriving DecidableEq, Repr

/-- `FullName = "<name>.<namespace>"`, the node-local unique pod key. -/
def GetPodFullName (pod : Pod) : String :=
  pod.name ++ "." ++ pod.nspace

/-! ## Container naming codec (spec sections 3 and 4.1)

The codec binds a runtime container to a `(pod, container-spec, hash,
attempt)` tuple through its name string.  The test fixtures pin the
dash-separated encoding `/k8s--<cname>[.<hash>]--<pod-fullname>[--<uuid>]`:
the emitter's own created names are required by the tests to match
`k8s--net\.[a-f0-9]+--foo.test--` and `k8s--bar\.[a-f0-9]+--foo.test--`,
and every observed fixture uses the same form, so the model encodes and
decodes with the `--` separator. -/

/-- Docker prepends a slash to names; the decoder strips it. -/
def dropSlash : List Char → List Char
  | '/' :: rest => rest
  | s => s

/-- Split a character list on the two-character separator `--`
(greedy left-to-right, as `strings.Split` does). -/
def splitSep : List Char → List (List Char)
  | [] => [[]]
  | '-' :: '-' :: rest => [] :: splitSep rest
  | c :: rest =>
    match splitSep rest with
    | [] => [[c]]
    | g :: gs => (c :: g) :: gs

/-- Split a character list on a single separator character. -/
def splitOnChar (sep : Char) : List Char → List (List Char)
  | [] => [[]]
  | c :: rest =>
    if c = sep then [] :: splitOnChar sep rest
    else
      match splitOnChar sep rest with
      | [] => [[c]]
      | g :: gs => (c :: g) :: gs

/-- Value of one lowercase hexadecimal digit. -/
def hexCharVal (c : Char) : Option Nat :=
  if '0' ≤ c ∧ c ≤ '9' then some (c.toNat - 48)
  else if 'a' ≤ c ∧ c ≤ 'f' then some (c.toNat - 87)
  else none

/-- Accumulating hexadecimal reader; fails on a non-hex character. -/
def hexToNatAux : List Char → Nat → Option Nat
  | [], acc => some acc
  | c :: rest, acc =>
    match hexCharVal c with
    | some d => hexToNatAux rest (acc * 16 + d)
    | none => none

/-- Modelled from the spec: the hash segment of a container name is a
64-bit unsigned value printed in lowercase hex; the decoder yields 0 for
a missing, malformed or out-of-range segment (decoding never errors). -/
def parseHex (s : List Char) : Nat :=
  match hexToNatAux s 0 with
  | some v => if v < 2 ^ 64 then v else 0
  | none => 0

/-- Lowercase hexadecimal rendering of a natural number. -/
def natToHex (n : Nat) : String :=
  ⟨Nat.toDigits 16 n⟩

/-- Modelled from the spec: the deterministic 64-bit fingerprint of a
container spec (`HashContainer` in the source, absent from the excerpt)
is computed over a canonical serialization such that any semantic change
to the spec changes the hash; the model serializes every field of
`Container` and folds a polynomial hash modulo `2 ^ 64`. -/
def serializeContainer (c : Container) : String :=
  c.name ++ "|" ++ c.image ++ "|"
    ++ String.join (c.env.map (fun e => e.name ++ "=" ++ e.value ++ ";"))
    ++ "|"
    ++ String.join (c.ports.map (fun p =>
        toString p.containerPort ++ "," ++ toString p.hostPort ++ ","
          ++ p.hostIP ++ "," ++ p.protocol ++ ";"))
    ++ "|"
    ++ (match c.lifecycle with
        | none => "-"
        | some l =>
          match l.postStart with
          | none => "-"
          | some h =>
            (match h.httpGet with
             | none => "-"
             | some a => "http:" ++ a.host ++ ":" ++ toString a.port ++ "/" ++ a.path)
            ++ (match h.exec with
                | none => "-"
                | some e => "exec:" ++ String.join e.command))
    ++ "|"
    ++ (match c.livenessProbe with
        | none => "-"
        | some p => p.type)

/-- Polynomial string fingerprint modulo `2 ^ 64`. -/
def strFingerprint (s : String) : Nat :=
  s.data.foldl (fun h c => (h * 65599 + c.toNat) % 2 ^ 64) 5381

/-- Modelled from the spec: `HashContainer` (dockertools), the spec-hash
embedded in container names. -/
def HashContainer (c : Container) : Nat :=
  strFingerprint (serializeContainer c)

/-- Modelled from the spec: the encoder (`buildDockerName` in the source,
absent from the excerpt).  Inputs are the container spec, the pod and an
attempt token (random in the source, drawn from a fresh counter in the
model); the output is the canonical identity string
`k8s--<cname>.<hash>--<pod-fullname>--<token>` pinned by the test
regular expressions. -/
def buildDockerName (pod : Pod) (c : Container) (token : Nat) : String :=
  "k8s--" ++ c.name ++ "." ++ natToHex (HashContainer c) ++ "--"
    ++ GetPodFullName pod ++ "--" ++ toString token

/-- The decoded identity of a managed runtime container. -/
structure ParsedName where
  podFullName : String
  cname : String
  hash : Nat
  uuid : String
deriving DecidableEq, Repr

/-- Modelled from the spec: the decoder (`parseDockerName` in the source,
absent from the excerpt).  It is total: a name not beginning with the
agent prefix `k8s` (after the optional docker slash) is foreign and maps
to `none`; otherwise the `--`-separated segments give container name
(with optional `.hash`), pod full-name and attempt uuid, missing
segments decoding to the empty string and a missing or malformed hash
to 0. -/
def parseDockerName (name : String) : Option ParsedName :=
  match splitSep (dropSlash name.data) with
  | [] => none
  | p0 :: rest =>
    if p0 = "k8s".data then
      let pieces := splitOnChar '.' (rest.headD [])
      let hash : Nat :=
        match pieces with
        | _ :: h :: _ => parseHex h
        | _ => 0
      some ⟨⟨(rest.drop 1).headD []⟩, ⟨pieces.headD []⟩, hash, ⟨(rest.drop 2).headD []⟩⟩
    else none

/-! ## Runtime adapter state (spec section 4.2)

The runtime is modelled as explicit state.  Operations record their kind
in `calls` exactly as the fake runtime client of the test suite does
("list", "inspect", "create", "start", "stop"); `created` records created
names, `stopped` the ids passed to Stop and `stoppedNames` the
corresponding name strings (a ghost field used to state the safety claim
that foreign containers are never stopped).  A created container is
appended to the visible container list under its name prefixed with a
slash, as the fake client does.  `err` models the runtime error injected
into the fake client: Stop reports it to the caller after recording the
call. -/

/-- A runtime container view: id and name string. -/
structure APIContainer where
  id : String
  name : String
deriving DecidableEq, Repr

/-- The modelled runtime state. -/
structure DockerState where
  containers : List APIContainer
  calls : List String
  created : List String
  stopped : List String
  stoppedNames : List String
  nextToken : Nat
  err : Option String
deriving DecidableEq, Repr

/-- The quiescent runtime: no containers, empty trace, no injected error. -/
def initState : DockerState :=
  { containers := [], calls := [], created := [], stopped := [],
    stoppedNames := [], nextToken := 0, err := none }

/-- A runtime state whose visible container list is `l`. -/
def stateWith (l : List APIContainer) : DockerState :=
  { initState with containers := l }

/-- `List()`: records the call and returns every visible container. -/
def listContainers (st : DockerState) : DockerState × List APIContainer :=
  ({ st with calls := st.calls ++ ["list"] }, st.containers)

/-- `Inspect(id)`: records the call. -/
def inspectContainer (st : DockerState) (_id : String) : DockerState :=
  { st with calls := st.calls ++ ["inspect"] }

/-- `Create(name)`: records the call and the created name, and adds the
container to the visible list under `/<name>` (fake-client behavior). -/
def createContainer (st : DockerState) (name : String) : DockerState × String :=
  let id := "/" ++ name
  ({ st with calls := st.calls ++ ["create"], created := st.created ++ [name],
             containers := st.containers ++ [⟨id, id⟩] }, id)

/-- `Start(id)`: records the call. -/
def startContainer (st : DockerState) (_id : String) : DockerState :=
  { st with calls := st.calls ++ ["start"] }

/-- `Stop(id, timeout)`: records the call, the stopped id and (ghost) the
stopped container's name, and reports the injected runtime error. -/
def stopContainer (st : DockerState) (c : APIContainer) : DockerState × Option String :=
  ({ st with calls := st.calls ++ ["stop"], stopped := st.stopped ++ [c.id],
             stoppedNames := st.stoppedNames ++ [c.name] }, st.err)

/-- Modelled from the spec: `killContainer` (kubelet), absent from the
excerpt: it issues a single runtime Stop for the container and returns
the runtime's verdict. -/
def killContainer (st : DockerState) (c : APIContainer) : DockerState × Option String :=
  stopContainer st c

/-! ## Injected capabilities (spec sections 4.5 and 6) -/

/-- Health verdicts of the health-check capability. -/
inductive HealthStatus where
  | Healthy
  | Unhealthy
  | Unknown
deriving DecidableEq, Repr

/-- Stats returned by the stats provider. -/
structure ContainerInfo where
  path : String
deriving DecidableEq, Repr

/-- The injected capabilities: health checker, HTTP client (`true` means
the GET failed), in-container command runner and stats provider. -/
structure Caps where
  healthCheck : String → Container → HealthStatus
  httpGetFails : String → Bool
  execFails : List String → Bool
  containerInfo : String → Except String ContainerInfo
  runCmd : String → List String → Except String (List String)

/-- Capabilities in which every probe passes and every handler succeeds. -/
def defaultCaps : Caps :=
  { healthCheck := fun _ _ => .Healthy
    httpGetFails := fun _ => false
    execFails := fun _ => false
    containerInfo := fun p => .ok ⟨p⟩
    runCmd := fun _ _ => .ok [] }

/-- The always-Unhealthy health checker of the test suite. -/
def falseHealthCheckerCaps : Caps :=
  { defaultCaps with healthCheck := fun _ _ => .Unhealthy }

/-- An HTTP client that fails every GET (the test suite's failing client). -/
def failingHTTPCaps : Caps :=
  { defaultCaps with httpGetFails := fun _ => true }

/-- Modelled from the spec: the per-container health verdict — a container
without a liveness probe is healthy; otherwise the injected checker
decides.  Unknown is treated as Healthy (spec section 4.5), so only an
Unhealthy verdict forces a restart. -/
def healthy (caps : Caps) (podFullName : String) (c : Container) : HealthStatus :=
  match c.livenessProbe with
  | none => .Healthy
  | some _ => caps.healthCheck podFullName c

/-- Modelled from the spec: lifecycle handler dispatch (`runHandler`):
`HTTPGet` issues `GET http://<host>:<port>/<path>` and fails on a
transport error; `Exec` runs the command in the container; an empty
handler is a no-op success.  Returns `true` when the handler failed. -/
def runHandlerFails (caps : Caps) (h : Handler) : Bool :=
  match h.httpGet with
  | some a => caps.httpGetFails ("http://" ++ a.host ++ ":" ++ toString a.port ++ "/" ++ a.path)
  | none =>
    match h.exec with
    | some e => caps.execFails e.command
    | none => false

/-- The PostStart handler of a container spec, when one is set. -/
def postStartOf (c : Container) : Option Handler :=
  match c.lifecycle with
  | none => none
  | some l => l.postStart

/-! ## Pod-scoped matching (spec section 4.2) -/

/-- Whether a runtime container decodes to the given pod full-name,
attempt uuid (empty uuid matches anything) and container name. -/
def containerMatches (podFullName uuid cname : String) (c : APIContainer) : Bool :=
  match parseDockerName c.name with
  | none => false
  | some p =>
    p.podFullName == podFullName && p.cname == cname
      && (uuid == "" || p.uuid == uuid)

/-- Modelled from the spec: `FindPodContainer` — the first container of
the pod-scoped grouping that decodes to the given identity. -/
def findPodContainer (l : List APIContainer) (podFullName uuid cname : String) :
    Option APIContainer :=
  l.find? (containerMatches podFullName uuid cname)

/-- The reserved container-name of the network sandbox (`networkContainerName`
in the source; written `net` in the encoding the tests pin). -/
def networkContainerName : String := "net"

/-- Modelled from the spec: the network sandbox's container spec — the
reserved name, the agent's sandbox image, and the union of the pod's
declared ports (the sandbox owns the pod's port mappings). -/
def networkContainerSpec (pod : Pod) : Container :=
  { name := networkContainerName
    image := "kubernetes/pause"
    env := []
    ports := pod.manifest.containers.foldr (fun c acc => c.ports ++ acc) []
    lifecycle := none
    livenessProbe := none }

/-! ## Pod sync engine (spec section 4.4)

`syncPod` reconciles one pod against the snapshot `dcMap` of the pod's
runtime containers (produced from the pre-dispatch List).  Its order,
fixed by the spec's scenario traces and the test suite:

1. if no sandbox container is found in the snapshot, create and start
   one;
2. query the live container list and, when the sandbox is visible in it,
   Inspect it to obtain the network namespace handle;
3. for each desired container in manifest order: leave a matching
   `(cname, hash)` container alone when it passes health; otherwise Stop
   the stale or unhealthy container; then query recent containers
   (List), Create the replacement attached to the sandbox and Start it;
   on PostStart handler failure Stop the container just started and
   record the failure for that container, continuing with the rest;
4. reap: every snapshot container of this pod that was neither kept nor
   already killed is stopped (duplicates and containers foreign to the
   spec). -/

/-- Create and start one container of the pod; returns the new id. -/
def runContainer (st : DockerState) (pod : Pod) (c : Container) (_netMode : String) :
    DockerState × String :=
  let name := buildDockerName pod c st.nextToken
  let st := { st with nextToken := st.nextToken + 1 }
  let (st, id) := createContainer st name
  (startContainer st id, id)

/-- Step 3 of `syncPod` over the desired containers, in manifest order.
Returns the state, the kept ids, the killed ids and the per-container
failures. -/
def syncContainers (caps : Caps) (pod : Pod) (dcMap : List APIContainer)
    (netID : String) :
    List Container → DockerState → DockerState × List String × List String × List String
  | [], st => (st, [], [], [])
  | c :: rest, st =>
    let podFullName := GetPodFullName pod
    let uuid := pod.manifest.uuid
    let create := fun (st : DockerState) (killed : List String) =>
      let (st, _live) := listContainers st
      let (st, id) := runContainer st pod c ("container:" ++ netID)
      match postStartOf c with
      | some h =>
        if runHandlerFails caps h then
          let (st, _) := killContainer st ⟨id, id⟩
          let (st, keep, kl, errs) := syncContainers caps pod dcMap netID rest st
          (st, keep, killed ++ [id] ++ kl,
            ("PostStart handler failed for " ++ c.name) :: errs)
        else
          let (st, keep, kl, errs) := syncContainers caps pod dcMap netID rest st
          (st, id :: keep, killed ++ kl, errs)
      | none =>
        let (st, keep, kl, errs) := syncContainers caps pod dcMap netID rest st
        (st, id :: keep, killed ++ kl, errs)
    match findPodContainer dcMap podFullName uuid c.name with
    | some dc =>
      let obsHash := (parseDockerName dc.name).elim 0 (·.hash)
      if (obsHash == 0 || obsHash == HashContainer c)
          && !(healthy caps podFullName c == .Unhealthy) then
        let (st, keep, kl, errs) := syncContainers caps pod dcMap netID rest st
        (st, dc.id :: keep, kl, errs)
      else
        let (st, killErr) := killContainer st dc
        match killErr with
        | some e =>
          let (st, keep, kl, errs) := syncContainers caps pod dcMap netID rest st
          (st, keep, kl, ("failed to kill " ++ c.name ++ ": " ++ e) :: errs)
        | none => create st [dc.id]
    | none => create st []

/-- Step 4 of `syncPod`: stop every snapshot container of this pod that
was neither kept nor already killed. -/
def reapPodContainers (podFullName : String) (keep killed : List String) :
    List APIContainer → DockerState → DockerState
  | [], st => st
  | c :: rest, st =>
    match parseDockerName c.name with
    | none => reapPodContainers podFullName keep killed rest st
    | some p =>
      if p.podFullName == podFullName && !(keep.contains c.id) && !(killed.contains c.id) then
        reapPodContainers podFullName keep killed rest (killContainer st c).1
      else
        reapPodContainers podFullName keep killed rest st

/-- Modelled from the spec: `syncPod`, the per-pod reconciliation
(spec section 4.4, steps 2-5; see the module comment above for the
order).  Returns the runtime state and the pod's per-container failure
list (failures do not abort the sync). -/
def syncPod (caps : Caps) (pod : Pod) (dcMap : List APIContainer)
    (st : DockerState) : DockerState × List String :=
  let podFullName := GetPodFullName pod
  let uuid := pod.manifest.uuid
  let stNet :=
    match findPodContainer dcMap podFullName uuid networkContainerName with
    | some dc => (st, dc.id)
    | none => runContainer st pod (networkContainerSpec pod) ""
  let netID := stNet.2
  let stList := listContainers stNet.1
  let stIns :=
    match findPodContainer stList.2 podFullName uuid networkContainerName with
    | some dc => inspectContainer stList.1 dc.id
    | none => stList.1
  let res := syncContainers caps pod dcMap netID pod.manifest.containers stIns
  (reapPodContainers podFullName (netID :: res.2.1) res.2.2.1 dcMap res.1, res.2.2.2)

/-! ## Admission filtering (spec section 4.4, step 1) -/

/-- The host-ports declared by a pod, across its containers; a zero
host-port means "no host port requested" and is not part of the set. -/
def podHostPorts (p : Pod) : List Nat :=
  (p.manifest.containers.foldr (fun c acc => c.ports.map (·.hostPort) ++ acc) []).filter
    (fun n => !(n == 0))

/-- Whether a pod's host-ports conflict with an already-used set. -/
def conflictsWith (used : List Nat) (p : Pod) : Bool :=
  (podHostPorts p).any (fun n => used.contains n)

/-- Worker of `filterHostPortConflicts`, carrying the host-ports of the
pods admitted so far. -/
def filterHostPortConflictsAux (used : List Nat) : List Pod → List Pod
  | [] => []
  | p :: rest =>
    if conflictsWith used p then filterHostPortConflictsAux used rest
    else p :: filterHostPortConflictsAux (used ++ podHostPorts p) rest

/-- Modelled from the spec: `filterHostPortConflicts` — reject any pod
whose set of host-ports conflicts, across containers, with a pod already
admitted in the same snapshot; earlier pods in the snapshot win and later
conflicting pods are silently dropped. -/
def filterHostPortConflicts (pods : List Pod) : List Pod :=
  filterHostPortConflictsAux [] pods

/-! ## Snapshot-level reconciliation (spec section 4.4) -/

/-- The desired `(pod-fullname, cname)` set of a snapshot: for every
admitted pod, its sandbox and each of its declared containers. -/
def desiredPairs (pods : List Pod) : List (String × String) :=
  pods.foldr
    (fun p acc =>
      (GetPodFullName p, networkContainerName)
        :: p.manifest.containers.map (fun c => (GetPodFullName p, c.name)) ++ acc)
    []

/-- Cross-pod delete: stop every managed container (its name decodes
under the agent's scheme) whose decoded `(pod-fullname, cname)` is not in
the desired set; foreign containers are skipped. -/
def killUndesired (desired : List (String × String)) :
    List APIContainer → DockerState → DockerState
  | [], st => st
  | c :: rest, st =>
    match parseDockerName c.name with
    | none => killUndesired desired rest st
    | some p =>
      if desired.contains (p.podFullName, p.cname) then
        killUndesired desired rest st
      else
        killUndesired desired rest (killContainer st c).1

/-- Modelled from the spec: `SyncPods`, the snapshot-level
reconciliation, with the pod worker pool drained (the pool serializes
per-pod syncs; the drained model runs them after the snapshot-level
work, which is the order the traces of the test suite observe):

1. admission filtering of the snapshot;
2. List, and group the managed containers as the observed snapshot that
   is handed to every per-pod sync;
3. List again and stop every managed container not in the desired set
   (cross-pod delete);
4. run `syncPod` for each admitted pod, in snapshot order.

Returns the runtime state and the aggregated per-container failures. -/
def SyncPods (caps : Caps) (pods : List Pod) (st : DockerState) :
    DockerState × List String :=
  let admitted := filterHostPortConflicts pods
  let stl := listContainers st
  let dcMap := stl.2.filter (fun c => (parseDockerName c.name).isSome)
  let desired := desiredPairs admitted
  let stl2 := listContainers stl.1
  let st2 := killUndesired desired stl2.2 stl2.1
  admitted.foldl
    (fun acc p =>
      let r := syncPod caps p dcMap acc.1
      (r.1, acc.2 ++ r.2))
    (st2, [])

/-! ## Ports and bindings (spec section 4.6) -/

/-- ASCII upper-casing of one character. -/
def upperAscii (c : Char) : Char :=
  if 'a' ≤ c ∧ c ≤ 'z' then Char.ofNat (c.toNat - 32) else c

/-- ASCII upper-casing of a string (`strings.ToUpper`). -/
def strToUpper (s : String) : String :=
  ⟨s.data.map upperAscii⟩

/-- Modelled from the spec: protocol normalization — `tcp` and `udp` are
kept (case-insensitively) and any other value, the empty string
included, collapses to `tcp`. -/
def normalizeProtocol (p : String) : String :=
  if strToUpper p == "UDP" then "udp" else "tcp"

/-- The binding-map key of a declared port: `<containerPort>/<protocol>`. -/
def portKey (p : Port) : String :=
  toString p.containerPort ++ "/" ++ normalizeProtocol p.protocol

/-- One host-side binding: host port (rendered as a string) and host IP. -/
structure PortBinding where
  hostPort : String
  hostIp : String
deriving DecidableEq, Repr

/-- Map update with overwrite: the entry for `k`, if any, is replaced. -/
def insertBinding (k : String) (v : List PortBinding) :
    List (String × List PortBinding) → List (String × List PortBinding)
  | [] => [(k, v)]
  | (k', v') :: rest =>
    if k' == k then (k, v) :: rest else (k', v') :: insertBinding k v rest

/-- Set insert for the exposed-port keys. -/
def insertKey (k : String) (l : List String) : List String :=
  if l.contains k then l else l ++ [k]

/-- Modelled from the spec: `makePortsAndBindings` — from each declared
`(containerPort, hostPort, hostIP, protocol)` produce the exposed-port
key set and the binding map
`"<containerPort>/<protocol>" → [{HostPort, HostIp}]`; the maps are
keyed maps, so a later declaration of the same key overwrites the
earlier one. -/
def portStep (acc : List String × List (String × List PortBinding)) (p : Port) :
    List String × List (String × List PortBinding) :=
  (insertKey (portKey p) acc.1,
   insertBinding (portKey p) [⟨toString p.hostPort, p.hostIP⟩] acc.2)

/-- Modelled from the spec: `makePortsAndBindings` (see the doc comment
of `portStep` just above for the per-port step). -/
def makePortsAndBindings (c : Container) :
    List String × List (String × List PortBinding) :=
  c.ports.foldl portStep ([], [])

/-- Lookup in the binding map. -/
def lookupBinding : List (String × List PortBinding) → String → Option (List PortBinding)
  | [], _ => none
  | e :: rest, k => if e.1 == k then some e.2 else lookupBinding rest k

/-! ## Information endpoints (spec section 6) -/

/-- Modelled from the spec: `GetContainerInfo` — resolve the runtime
container by listing containers and decoding their names against
`(pod-fullname, uid, container-name)`, then delegate to the stats
provider; a not-found error when no listed container matches. -/
def GetContainerInfo (caps : Caps) (st : DockerState)
    (podFullName uid cname : String) : DockerState × Except String ContainerInfo :=
  let (st, live) := listContainers st
  match findPodContainer live podFullName uid cname with
  | none => (st, .error ("failed to find container " ++ cname))
  | some dc => (st, caps.containerInfo dc.id)

/-- Modelled from the spec: `RunInContainer` — resolve the runtime
container as `GetContainerInfo` does, then delegate to the command
runner; an error when no listed container matches. -/
def RunInContainer (caps : Caps) (st : DockerState)
    (podFullName uid cname : String) (cmd : List String) :
    DockerState × Except String (List String) :=
  let (st, live) := listContainers st
  match findPodContainer live podFullName uid cname with
  | none => (st, .error ("failed to find container " ++ cname))
  | some dc => (st, caps.runCmd dc.id cmd)

/-! ## Claim regular expressions (spec section 8, scenario S1)

The spec asserts that the created sandbox name matches
`k8s[_-]net(\.[a-f0-9]+)?[_-]foo\.test[_-]` and the created application
container name matches `k8s[_-]bar\.[a-f0-9]+[_-]foo\.test[_-]`
(unanchored search, `[_-]` a one-character class).  The matchers below
implement exactly those patterns; since the separator class, the hex
class and the literals are pairwise disjoint at every choice point, the
greedy deterministic reading coincides with full backtracking search. -/

/-- Lowercase hex digit class `[a-f0-9]`. -/
def isHexDigitCh (c : Char) : Bool :=
  ('0' ≤ c && c ≤ '9') || ('a' ≤ c && c ≤ 'f')

/-- Separator class `[_-]`. -/
def isSepCh (c : Char) : Bool :=
  c == '_' || c == '-'

/-- Consume a literal prefix. -/
def stripLit : List Char → List Char → Option (List Char)
  | [], s => some s
  | _ :: _, [] => none
  | c :: cs, x :: xs => if x == c then stripLit cs xs else none

/-- Consume one `[_-]` character. -/
def stripSepCh : List Char → Option (List Char)
  | x :: xs => if isSepCh x then some xs else none
  | [] => none

/-- Consume the literal separator `--` of the amended patterns. -/
def stripDashDash : List Char → Option (List Char)
  | '-' :: '-' :: xs => some xs
  | _ => none

/-- Consume `[a-f0-9]+` (greedy). -/
def stripHexPlus : List Char → Option (List Char)
  | x :: xs => if isHexDigitCh x then some (xs.dropWhile isHexDigitCh) else none
  | [] => none

/-- Match `[_-]foo\.test[_-]` at the front. -/
def matchPodTailClaim (s : List Char) : Bool :=
  match stripSepCh s with
  | none => false
  | some s =>
    match stripLit "foo.test".data s with
    | none => false
    | some s => (stripSepCh s).isSome

/-- Match `k8s[_-]net(\.[a-f0-9]+)?[_-]foo\.test[_-]` at the front. -/
def matchNetClaimAt (s : List Char) : Bool :=
  match stripLit "k8s".data s with
  | none => false
  | some s =>
    match stripSepCh s with
    | none => false
    | some s =>
      match stripLit "net".data s with
      | none => false
      | some s =>
        match s with
        | '.' :: rest =>
          match stripHexPlus rest with
          | none => false
          | some s => matchPodTailClaim s
        | _ => matchPodTailClaim s

/-- Match `k8s[_-]bar\.[a-f0-9]+[_-]foo\.test[_-]` at the front. -/
def matchBarClaimAt (s : List Char) : Bool :=
  match stripLit "k8s".data s with
  | none => false
  | some s =>
    match stripSepCh s with
    | none => false
    | some s =>
      match stripLit "bar.".data s with
      | none => false
      | some s =>
        match stripHexPlus s with
        | none => false
        | some s => matchPodTailClaim s

/-- Match `--foo\.test--` at the front (the separator the encoder
actually emits, pinned by the test suite's own regular expressions). -/
def matchPodTailAmended (s : List Char) : Bool :=
  match stripDashDash s with
  | none => false
  | some s =>
    match stripLit "foo.test".data s with
    | none => false
    | some s => (stripDashDash s).isSome

/-- Match `k8s--net(\.[a-f0-9]+)?--foo\.test--` at the front. -/
def matchNetAmendedAt (s : List Char) : Bool :=
  match stripLit "k8s".data s with
  | none => false
  | some s =>
    match stripDashDash s with
    | none => false
    | some s =>
      match stripLit "net".data s with
      | none => false
      | some s =>
        match s with
        | '.' :: rest =>
          match stripHexPlus rest with
          | none => false
          | some s => matchPodTailAmended s
        | _ => matchPodTailAmended s

/-- Match `k8s--bar\.[a-f0-9]+--foo\.test--` at the front. -/
def matchBarAmendedAt (s : List Char) : Bool :=
  match stripLit "k8s".data s with
  | none => false
  | some s =>
    match stripDashDash s with
    | none => false
    | some s =>
      match stripLit "bar.".data s with
      | none => false
      | some s =>
        match stripHexPlus s with
        | none => false
        | some s => matchPodTailAmended s

/-- Unanchored search: does any suffix of `s` match? -/
def searchMatch (f : List Char → Bool) (s : String) : Bool :=
  s.data.tails.any f

/-! ## The scenarios of the test suite and spec section 8 -/

/-- The application container `{Name: "bar"}` of scenarios S1-S4, S7. -/
def barC : Container := ⟨"bar", "", [], [], none, none⟩

/-- The pod `foo.test` with the single container `bar` (S1). -/
def podFoo : Pod := ⟨"foo", "test", ⟨"foo", "", [barC]⟩⟩

/-- The observed sandbox fixture `/k8s--net--foo.test--` with id 9876. -/
def sandboxFooObs : APIContainer := ⟨"9876", "/k8s--net--foo.test--"⟩

/-- The observed up-to-date `bar` fixture: its name carries the hash of
the current spec, as `TestSyncPodsDoesNothing` builds it. -/
def obsBarName : String :=
  "/k8s--bar." ++ natToHex (HashContainer barC) ++ "--foo.test"

/-- Runtime state of `TestSyncPodsDoesNothing`: an up-to-date `bar` and
the sandbox. -/
def doesNothingState : DockerState :=
  stateWith [⟨"1234", obsBarName⟩, sandboxFooObs]

/-- Runtime state of `TestSyncPodsDeletes` (scenario S6): a managed app
container of pod `bar.test`, a managed sandbox of pod `foo.test` and a
foreign container named `foo`. -/
def deletesState : DockerState :=
  stateWith [⟨"1234", "/k8s--foo--bar.test"⟩, ⟨"9876", "/k8s--net--foo.test--"⟩,
             ⟨"4567", "foo"⟩]

/-- Observed snapshot of `TestSyncPodBadHash` (scenario S4): `bar` with
the stale hash `0x1234` plus the sandbox. -/
def badHashMap : List APIContainer :=
  [⟨"1234", "/k8s--bar.1234--foo.test"⟩, sandboxFooObs]

/-- The `bar` container with the always-false liveness probe of
`TestSyncPodUnhealthy`. -/
def barProbeC : Container := ⟨"bar", "", [], [], none, some ⟨"false"⟩⟩

/-- The pod of `TestSyncPodUnhealthy`. -/
def podFooProbe : Pod := ⟨"foo", "test", ⟨"foo", "", [barProbeC]⟩⟩

/-- Observed snapshot of `TestSyncPodUnhealthy`: a running `bar` with
matching (absent) hash plus the sandbox. -/
def unhealthyMap : List APIContainer :=
  [⟨"1234", "/k8s--bar--foo.test"⟩, sandboxFooObs]

/-- The desired container `foo` of `TestSyncPodDeletesDuplicate`. -/
def fooC : Container := ⟨"foo", "", [], [], none, none⟩

/-- The pod `bar.test` of `TestSyncPodDeletesDuplicate` (scenario S5). -/
def podBar : Pod := ⟨"bar", "test", ⟨"bar", "", [fooC]⟩⟩

/-- Observed snapshot of `TestSyncPodDeletesDuplicate`: two containers
decoding to `(bar.test, foo)`, the sandbox, and a container of another
pod. -/
def duplicateMap : List APIContainer :=
  [⟨"1234", "/k8s--foo--bar.test--1"⟩, ⟨"9876", "/k8s--net--bar.test--"⟩,
   ⟨"4567", "/k8s--foo--bar.test--2"⟩, ⟨"2304", "/k8s--baz--fiz.test--6"⟩]

/-- The `bar` container with the PostStart `HTTPGet(does.no.exist:8080/bar)`
handler of `TestSyncPodEventHandlerFails` (scenario S7). -/
def barHandlerC : Container :=
  ⟨"bar", "", [], [], some ⟨some ⟨some ⟨"does.no.exist", 8080, "bar"⟩, none⟩⟩, none⟩

/-- The pod of scenario S7. -/
def podFooHandler : Pod := ⟨"foo", "test", ⟨"foo", "", [barHandlerC]⟩⟩

/-- A second, handler-free container: appended to the S7 pod to observe
that the sync continues past the handler failure. -/
def bazC : Container := ⟨"baz", "", [], [], none, none⟩

/-- The S7 pod extended with a second container after the failing one. -/
def podFooHandlerTwo : Pod :=
  ⟨"foo", "test", ⟨"foo", "", [barHandlerC, bazC]⟩⟩

/-- Observed snapshot of scenario S7: only the sandbox. -/
def handlerFailMap : List APIContainer := [sandboxFooObs]

/-- A pod declaring a single host-port, as `TestCheckHostPortConflicts`
builds them. -/
def hostPortPod (hp : Nat) : Pod :=
  ⟨"p", "t", ⟨"p", "", [⟨"c", "", [], [⟨80, hp, "", ""⟩], none, none⟩]⟩⟩

/-- The four-port container of `TestMakePortsAndBindings`. -/
def portsC : Container :=
  ⟨"c", "", [],
   [⟨80, 8080, "127.0.0.1", ""⟩, ⟨443, 443, "", "tcp"⟩,
    ⟨444, 444, "", "udp"⟩, ⟨445, 445, "", "foobar"⟩], none, none⟩

/-- A container declaring the same `(containerPort, protocol)` key twice
(protocols `tcp` and empty both key `80/tcp`). -/
def dupKeyC : Container :=
  ⟨"c", "", [], [⟨80, 8080, "", "tcp"⟩, ⟨80, 9090, "", ""⟩], none, none⟩

/-- The host-ports of a list of pods, in order. -/
def allHostPorts (l : List Pod) : List Nat :=
  l.foldr (fun q acc => podHostPorts q ++ acc) []

/-- The property that every name ever passed to a Stop call decodes
under the agent's naming scheme (the ghost trail `stoppedNames` records
the name of every stopped container). -/
def StopsDecoded (st : DockerState) : Prop :=
  ∀ n ∈ st.stoppedNames, (parseDockerName n).isSome = true

instance (st : DockerState) : Decidable (StopsDecoded st) :=
  inferInstanceAs (Decidable (∀ n ∈ st.stoppedNames, (parseDockerName n).isSome = true))

/-- Two pods declare disjoint host-port sets. -/
def PortsDisjoint (p q : Pod) : Prop :=
  ∀ n ∈ podHostPorts p, n ∉ podHostPorts q

instance : DecidableRel PortsDisjoint := fun p q =>
  inferInstanceAs (Decidable (∀ n ∈ podHostPorts p, n ∉ podHostPorts q))

/-! ## Theorems -/

/-! ### Helper lemmas -/

/-- Appending strings appends their character data. -/
theorem data_append (s t : String) : (s ++ t).data = s.data ++ t.data := by
  cases s; cases t; rfl

/-- `splitSep` peels the agent prefix `k8s--` off in one step. -/
theorem splitSep_k8s (l : List Char) :
    splitSep ('k' :: '8' :: 's' :: '-' :: '-' :: l) = "k8s".data :: splitSep l := rfl

/-- Every encoder output starts with the five characters `k8s--`. -/
theorem build_data_shape (pod : Pod) (c : Container) (tok : Nat) :
    ∃ t, (buildDockerName pod c tok).data = 'k' :: '8' :: 's' :: '-' :: '-' :: t := by
  refine ⟨(c.name ++ "." ++ natToHex (HashContainer c) ++ "--"
    ++ GetPodFullName pod ++ "--" ++ toString tok).data, ?_⟩
  unfold buildDockerName
  simp only [data_append, List.append_assoc]
  rfl

/-- A slash-prefixed `k8s--` name always decodes. -/
theorem parse_slash_shape (t : List Char) :
    (parseDockerName ⟨'/' :: 'k' :: '8' :: 's' :: '-' :: '-' :: t⟩).isSome = true := by
  have h1 : dropSlash (String.data ⟨'/' :: 'k' :: '8' :: 's' :: '-' :: '-' :: t⟩)
      = 'k' :: '8' :: 's' :: '-' :: '-' :: t := rfl
  simp only [parseDockerName, h1, splitSep_k8s]
  simp

/-- The decoder accepts every name the encoder emits (with the docker
slash prepended, as the runtime reports it). -/
theorem parse_build_isSome (pod : Pod) (c : Container) (tok : Nat) :
    (parseDockerName ("/" ++ buildDockerName pod c tok)).isSome = true := by
  obtain ⟨t, ht⟩ := build_data_shape pod c tok
  have hdata : ("/" ++ buildDockerName pod c tok) =
      ⟨'/' :: 'k' :: '8' :: 's' :: '-' :: '-' :: t⟩ := by
    cases hb : buildDockerName pod c tok with
    | mk l =>
      rw [hb] at ht
      exact congrArg String.mk (by simpa [data_append] using ht)
  rw [hdata]
  exact parse_slash_shape t

/-- A container that matches a pod identity decodes. -/
theorem containerMatches_isSome {f u n : String} {c : APIContainer}
    (h : containerMatches f u n c = true) : (parseDockerName c.name).isSome = true := by
  unfold containerMatches at h
  cases hp : parseDockerName c.name with
  | none => rw [hp] at h; simp at h
  | some p => simp [hp]

/-- A container found by the pod-scoped lookup decodes. -/
theorem findPodContainer_isSome {l : List APIContainer} {f u n : String}
    {dc : APIContainer} (h : findPodContainer l f u n = some dc) :
    (parseDockerName dc.name).isSome = true :=
  containerMatches_isSome (List.find?_some h)

/-- Stopping a container whose name decodes preserves `StopsDecoded`. -/
theorem stopsDecoded_kill {st : DockerState} {c : APIContainer}
    (hc : (parseDockerName c.name).isSome = true)
    (h : StopsDecoded st) : StopsDecoded (killContainer st c).1 := by
  intro n hn
  simp only [killContainer, stopContainer, List.mem_append, List.mem_singleton] at hn
  rcases hn with hn | rfl
  · exact h n hn
  · exact hc

/-- The cross-pod delete pass only stops containers that decode. -/
theorem stopsDecoded_killUndesired (desired : List (String × String)) :
    ∀ (l : List APIContainer) (st : DockerState), StopsDecoded st →
      StopsDecoded (killUndesired desired l st) := by
  intro l
  induction l with
  | nil => exact fun st h => h
  | cons c rest ih =>
    intro st h
    cases hp : parseDockerName c.name with
    | none => simpa only [killUndesired, hp] using ih st h
    | some p =>
      simp only [killUndesired, hp]
      by_cases hd : desired.contains (p.podFullName, p.cname) = true
      · simp only [hd, if_pos]
        exact ih st h
      · rw [if_neg (by simpa using hd)]
        exact ih _ (stopsDecoded_kill (by simp [hp]) h)

/-- The reap pass only stops containers that decode. -/
theorem stopsDecoded_reap (fullname : String) (keep killed : List String) :
    ∀ (l : List APIContainer) (st : DockerState), StopsDecoded st →
      StopsDecoded (reapPodContainers fullname keep killed l st) := by
  intro l
  induction l with
  | nil => exact fun st h => h
  | cons c rest ih =>
    intro st h
    cases hp : parseDockerName c.name with
    | none => simpa only [reapPodContainers, hp] using ih st h
    | some p =>
      simp only [reapPodContainers, hp]
      by_cases hd : (p.podFullName == fullname && !keep.contains c.id
          && !killed.contains c.id) = true
      · rw [if_pos hd]
        exact ih _ (stopsDecoded_kill (by simp [hp]) h)
      · rw [if_neg (by simpa using hd)]
        exact ih st h

/-- The per-container pass only stops containers that decode: stale or
unhealthy containers come from the pod-scoped lookup, and the container
stopped on a PostStart failure carries a name the encoder just built. -/
theorem stopsDecoded_syncContainers (caps : Caps) (pod : Pod)
    (dcMap : List APIContainer) (netID : String) :
    ∀ (cs : List Container) (st : DockerState), StopsDecoded st →
      StopsDecoded (syncContainers caps pod dcMap netID cs st).1 := by
  intro cs
  induction cs with
  | nil => exact fun st h => h
  | cons c rest ih =>
    intro st h
    cases hf : findPodContainer dcMap (GetPodFullName pod) pod.manifest.uuid c.name with
    | none =>
      simp only [syncContainers, hf, listContainers, runContainer, createContainer,
        startContainer]
      cases hps : postStartOf c with
      | none =>
        simp only [hps]
        exact ih _ (fun n hn => h n hn)
      | some hd =>
        simp only [hps]
        cases hrf : runHandlerFails caps hd with
        | false =>
          simp only [hrf, Bool.false_eq_true, if_false]
          exact ih _ (fun n hn => h n hn)
        | true =>
          simp only [hrf, if_true, killContainer, stopContainer]
          refine ih _ (fun n hn => ?_)
          simp only [List.mem_append, List.mem_singleton] at hn
          rcases hn with hn | rfl
          · exact h n hn
          · exact parse_build_isSome pod c st.nextToken
    | some dc =>
      simp only [syncContainers, hf]
      by_cases hcond : (((parseDockerName dc.name).elim 0 (fun p => p.hash) == 0
            || (parseDockerName dc.name).elim 0 (fun p => p.hash) == HashContainer c)
          && !(healthy caps (GetPodFullName pod) c == HealthStatus.Unhealthy)) = true
      · rw [if_pos hcond]
        exact ih _ h
      · rw [if_neg (by simpa using hcond)]
        have hkill : StopsDecoded (killContainer st dc).1 :=
          stopsDecoded_kill (findPodContainer_isSome hf) h
        cases hke : st.err with
        | some e =>
          simp only [killContainer, stopContainer, hke]
          exact ih _ (fun n hn => hkill n hn)
        | none =>
          simp only [killContainer, stopContainer, hke, listContainers, runContainer,
            createContainer, startContainer]
          cases hps : postStartOf c with
          | none =>
            simp only [hps]
            exact ih _ (fun n hn => hkill n hn)
          | some hd =>
            simp only [hps]
            cases hrf : runHandlerFails caps hd with
            | false =>
              simp only [hrf, Bool.false_eq_true, if_false]
              exact ih _ (fun n hn => hkill n hn)
            | true =>
              simp only [hrf, if_true]
              refine ih _ (fun n hn => ?_)
              simp only [List.mem_append, List.mem_singleton] at hn
              rcases hn with hn | rfl
              · exact hkill n (by simp [killContainer, stopContainer]; exact hn)
              · exact parse_build_isSome pod c (killContainer st dc).1.nextToken

/-- A whole per-pod sync only stops containers that decode. -/
theorem stopsDecoded_syncPod (caps : Caps) (pod : Pod) (dcMap : List APIContainer)
    (st : DockerState) (h : StopsDecoded st) :
    StopsDecoded (syncPod caps pod dcMap st).1 := by
  unfold syncPod
  simp only [listContainers]
  split
  · split
    · exact stopsDecoded_reap _ _ _ _ _
        (stopsDecoded_syncContainers _ _ _ _ _ _ (fun n hn => h n hn))
    · exact stopsDecoded_reap _ _ _ _ _
        (stopsDecoded_syncContainers _ _ _ _ _ _ (fun n hn => h n hn))
  · split
    · exact stopsDecoded_reap _ _ _ _ _
        (stopsDecoded_syncContainers _ _ _ _ _ _ (fun n hn => h n hn))
    · exact stopsDecoded_reap _ _ _ _ _
        (stopsDecoded_syncContainers _ _ _ _ _ _ (fun n hn => h n hn))

/-- The worker loop of `SyncPods` only stops containers that decode. -/
theorem stopsDecoded_syncPodsLoop (caps : Caps) (dcMap : List APIContainer) :
    ∀ (pods : List Pod) (acc : DockerState × List String), StopsDecoded acc.1 →
      StopsDecoded (pods.foldl
        (fun acc p =>
          let r := syncPod caps p dcMap acc.1
          (r.1, acc.2 ++ r.2)) acc).1 := by
  intro pods
  induction pods with
  | nil => exact fun acc h => h
  | cons p rest ih =>
    intro acc h
    simp only [List.foldl_cons]
    exact ih _ (stopsDecoded_syncPod caps p dcMap acc.1 h)

/-- Binding-map lookup after inserting the looked-up key. -/
theorem lookupBinding_insert_self (m : List (String × List PortBinding)) (k : String)
    (v : List PortBinding) : lookupBinding (insertBinding k v m) k = some v := by
  induction m with
  | nil => simp [insertBinding, lookupBinding]
  | cons e rest ih =>
    by_cases h : e.1 == k
    · simp [insertBinding, h, lookupBinding]
    · simp only [insertBinding]
      rw [if_neg (by simpa using h)]
      simp [lookupBinding, h, ih]

/-- Binding-map insertion preserves the presence of every key. -/
theorem lookupBinding_insert_isSome (m : List (String × List PortBinding))
    (k' : String) (v : List PortBinding) (k : String)
    (h : (lookupBinding m k).isSome = true) :
    (lookupBinding (insertBinding k' v m) k).isSome = true := by
  induction m with
  | nil => simp [lookupBinding] at h
  | cons e rest ih =>
    by_cases he : e.1 == k'
    · by_cases hk : k' == k
      · simp_all [insertBinding, lookupBinding]
      · simp_all [insertBinding, lookupBinding]
    · simp only [insertBinding]
      rw [if_neg (by simpa using he)]
      by_cases hek : e.1 == k
      · simp [lookupBinding, hek]
      · simp only [lookupBinding] at h ⊢
        rw [if_neg (by simpa using hek)] at h ⊢
        exact ih h

/-- After folding the port steps, the key of every processed port is
present in the binding map. -/
theorem bindings_key_mem (p : Port) :
    ∀ (ports : List Port) (acc : List String × List (String × List PortBinding)),
    p ∈ ports ∨ (lookupBinding acc.2 (portKey p)).isSome = true →
    (lookupBinding (ports.foldl portStep acc).2 (portKey p)).isSome = true := by
  intro ports
  induction ports with
  | nil =>
    intro acc h
    simpa using h.resolve_left (by simp)
  | cons q rest ih =>
    intro acc h
    simp only [List.foldl_cons]
    apply ih
    rcases h with h | h
    · rcases List.mem_cons.mp h with rfl | h
      · right
        simp [portStep, lookupBinding_insert_self]
      · left; exact h
    · right
      exact lookupBinding_insert_isSome _ _ _ _ h

/-- One admission pass is a fixed point of a second pass run with the
same already-used port set. -/
theorem filterAux_idem (S : List Pod) : ∀ used : List Nat,
    filterHostPortConflictsAux used (filterHostPortConflictsAux used S) =
      filterHostPortConflictsAux used S := by
  induction S with
  | nil => intro used; rfl
  | cons p rest ih =>
    intro used
    by_cases h : conflictsWith used p = true
    · simp [filterHostPortConflictsAux, h, ih]
    · have h' : conflictsWith used p = false := by simpa using h
      simp [filterHostPortConflictsAux, h', ih]

/-- `allHostPorts` distributes over cons. -/
theorem allHostPorts_cons (q : Pod) (l : List Pod) :
    allHostPorts (q :: l) = podHostPorts q ++ allHostPorts l := by
  simp [allHostPorts]

/-- Admission of a snapshot extended by one final pod: the final pod is
kept exactly when it does not conflict with the ports already admitted. -/
theorem filterAux_append_last (p : Pod) (S : List Pod) : ∀ used : List Nat,
    filterHostPortConflictsAux used (S ++ [p]) =
      filterHostPortConflictsAux used S ++
        (if conflictsWith (used ++ allHostPorts (filterHostPortConflictsAux used S)) p
         then [] else [p]) := by
  induction S with
  | nil =>
    intro used
    show filterHostPortConflictsAux used [p] = _
    by_cases h : conflictsWith used p = true
    · simp [filterHostPortConflictsAux, allHostPorts, h]
    · have h' : conflictsWith used p = false := by simpa using h
      simp [filterHostPortConflictsAux, allHostPorts, h']
  | cons q rest ih =>
    intro used
    by_cases h : conflictsWith used q = true
    · simp [filterHostPortConflictsAux, h, ih]
    · have h' : conflictsWith used q = false := by simpa using h
      simp [filterHostPortConflictsAux, h', ih, allHostPorts_cons, List.append_assoc]

/-- A snapshot with pairwise disjoint host-port sets (none of which
touch the already-used set) passes admission unchanged. -/
theorem filterAux_no_conflicts (S : List Pod) : ∀ used : List Nat,
    (∀ q ∈ S, ∀ n ∈ podHostPorts q, n ∉ used) →
    S.Pairwise PortsDisjoint →
    filterHostPortConflictsAux used S = S := by
  induction S with
  | nil => intro used _ _; rfl
  | cons p rest ih =>
    intro used hused hpw
    have hc : conflictsWith used p = false := by
      simp only [conflictsWith, List.any_eq_false]
      intro n hn
      have := hused p (List.mem_cons_self p rest) n hn
      simpa [List.elem_iff] using this
    rw [List.pairwise_cons] at hpw
    simp only [filterHostPortConflictsAux, hc, if_neg (by simp : ¬(false = true))]
    congr 1
    apply ih
    · intro q hq n hn
      simp only [List.mem_append]
      rintro (h | h)
      · exact hused q (List.mem_cons_of_mem _ hq) n hn h
      · exact hpw.1 q hq n h hn
    · exact hpw.2

/-- Decoding the sandbox fixture of the `foo.test` scenarios. -/
theorem parse_sandbox_name :
    parseDockerName "/k8s--net--foo.test--" = some ⟨"foo.test", "net", 0, ""⟩ := rfl

/-- Claim C1, counterexample.  For the S1 snapshot (desired pod
`foo.test` with container `bar`, nothing observed), `SyncPods` with the
worker pool drained issues exactly the nine-call sequence and creates
exactly two containers, but neither created name matches the claim's
regular expression: `k8s[_-]net(\.[a-f0-9]+)?[_-]foo\.test[_-]` and
`k8s[_-]bar\.[a-f0-9]+[_-]foo\.test[_-]` demand a single separator
character from `[_-]` while the encoder (as the test suite's own
regular expressions pin) separates segments with `--`. -/
theorem claim_C1_counterexample :
    (SyncPods defaultCaps [podFoo] initState).1.calls =
      ["list", "list", "create", "start", "list", "inspect", "list", "create", "start"] ∧
    (SyncPods defaultCaps [podFoo] initState).1.created.length = 2 ∧
    searchMatch matchNetClaimAt
      ((SyncPods defaultCaps [podFoo] initState).1.created.getD 0 "") = false ∧
    searchMatch matchBarClaimAt
      ((SyncPods defaultCaps [podFoo] initState).1.created.getD 1 "") = false := by
  decide

/-- Claim C1, amended.  Same S1 scenario: the call sequence is exactly
`list, list, create, start, list, inspect, list, create, start`, nothing
is stopped, and exactly two containers are created — first the network
sandbox, whose name matches `k8s--net(\.[a-f0-9]+)?--foo\.test--`, then
the application container, whose name matches
`k8s--bar\.[a-f0-9]+--foo\.test--` (the separators are `--`, as in the
test suite's regular expressions; the claim's `[_-]` single-character
separator class is replaced by the literal `--`). -/
theorem claim_C1 :
    (SyncPods defaultCaps [podFoo] initState).1.calls =
      ["list", "list", "create", "start", "list", "inspect", "list", "create", "start"] ∧
    (SyncPods defaultCaps [podFoo] initState).1.stopped = [] ∧
    (SyncPods defaultCaps [podFoo] initState).1.created.length = 2 ∧
    searchMatch matchNetAmendedAt
      ((SyncPods defaultCaps [podFoo] initState).1.created.getD 0 "") = true ∧
    searchMatch matchBarAmendedAt
      ((SyncPods defaultCaps [podFoo] initState).1.created.getD 1 "") = true := by
  decide

/-- Claim C4.  PostStart handler failure (scenario S7): with only the
sandbox observed and the HTTP client failing, the sync of the pod whose
container `bar` carries the `HTTPGet(does.no.exist:8080/bar)` PostStart
handler issues exactly `list, list, create, start, stop`, the single
stopped container is the one just started, the failure is surfaced for
that container, and the sync does not abort: with a second container
after the failing one, both containers are still created and started
and only the first is stopped. -/
theorem claim_C4 :
    (syncPod failingHTTPCaps podFooHandler handlerFailMap initState).1.calls =
      ["list", "list", "create", "start", "stop"] ∧
    (syncPod failingHTTPCaps podFooHandler handlerFailMap initState).1.stopped =
      ["/" ++ buildDockerName podFooHandler barHandlerC 0] ∧
    (syncPod failingHTTPCaps podFooHandler handlerFailMap initState).2 =
      ["PostStart handler failed for bar"] ∧
    (syncPod failingHTTPCaps podFooHandlerTwo handlerFailMap initState).1.calls =
      ["list", "list", "create", "start", "stop", "list", "create", "start"] ∧
    (syncPod failingHTTPCaps podFooHandlerTwo handlerFailMap initState).1.created.length = 2 ∧
    (syncPod failingHTTPCaps podFooHandlerTwo handlerFailMap initState).1.stopped.length = 1 := by
  decide

/-- Claim C5.  Duplicate resolution (scenario S5): syncing pod `bar.test`
(one desired container `foo`) against an observed snapshot holding two
containers that decode to `(bar.test, foo)` (ids 1234 and 4567), the
sandbox and a container of another pod issues exactly one stop (total
call sequence `list, stop`); the stopped container is one of the two
duplicates, the other duplicate is retained, and neither the sandbox nor
the other pod's container is touched. -/
theorem claim_C5 :
    (syncPod defaultCaps podBar duplicateMap initState).1.calls = ["list", "stop"] ∧
    ((syncPod defaultCaps podBar duplicateMap initState).1.stopped = ["1234"] ∨
      (syncPod defaultCaps podBar duplicateMap initState).1.stopped = ["4567"]) ∧
    "9876" ∉ (syncPod defaultCaps podBar duplicateMap initState).1.stopped ∧
    "2304" ∉ (syncPod defaultCaps podBar duplicateMap initState).1.stopped := by
  decide

/-- Claim C7, counterexample.  In the `TestSyncPodsDoesNothing` scenario
every desired container is observed with matching `(cname, hash)`,
running and healthy, and the sandbox is present (the first conjunct
exhibits the decoding); the drained `SyncPods` indeed makes no create,
start or stop call — but the call trace is `list, list, list, inspect`,
not list calls only: the sync engine inspects the pod's sandbox, so the
claim's "the only runtime calls are list calls" is false. -/
theorem claim_C7_counterexample :
    parseDockerName obsBarName = some ⟨"foo.test", "bar", HashContainer barC, ""⟩ ∧
    (SyncPods defaultCaps [podFoo] doesNothingState).1.calls =
      ["list", "list", "list", "inspect"] ∧
    ((SyncPods defaultCaps [podFoo] doesNothingState).1.calls.all
      (fun s => s == "list")) = false := by
  decide

/-- Claim C7, amended.  Same scenario: `SyncPods` makes no create, start
or stop calls for the pod — the only runtime calls are read-only list
calls plus the inspect of the pod's sandbox (trace
`list, list, list, inspect`). -/
theorem claim_C7 :
    (SyncPods defaultCaps [podFoo] doesNothingState).1.calls =
      ["list", "list", "list", "inspect"] ∧
    (SyncPods defaultCaps [podFoo] doesNothingState).1.created = [] ∧
    (SyncPods defaultCaps [podFoo] doesNothingState).1.stopped = [] ∧
    ((SyncPods defaultCaps [podFoo] doesNothingState).1.calls.all
      (fun s => s == "list" || s == "inspect")) = true := by
  decide

/-- Claim C9, counterexample.  A container declaring two ports with the
same `(containerPort, protocol)` key — `(80, 8080, tcp)` and
`(80, 9090, <empty>)`, the empty protocol collapsing to `tcp` — yields a
binding map with a single entry, not one entry per declared port: the
maps are keyed by `<containerPort>/<protocol>`, so the two declarations
share the key `80/tcp`, and the single surviving entry holds the values
of the later declaration (the modelled map assignment overwrites). -/
theorem claim_C9_counterexample :
    dupKeyC.ports.length = 2 ∧ (makePortsAndBindings dupKeyC).2.length = 1 ∧
    lookupBinding (makePortsAndBindings dupKeyC).2 "80/tcp" = some [⟨"9090", ""⟩] := by
  decide

/-- Claim C10.  `killContainer` issues exactly one runtime Stop call
regardless of the outcome, records the stopped id, and returns the
runtime's verdict: the injected runtime error when there is one
(the stop call is still made), and success (`none`) otherwise. -/
theorem claim_C10 (st : DockerState) (c : APIContainer) :
    (killContainer st c).1.calls = st.calls ++ ["stop"] ∧
    (killContainer st c).1.stopped = st.stopped ++ [c.id] ∧
    (killContainer st c).2 = st.err :=
  ⟨rfl, rfl, rfl⟩

/-- Claim C2.  For every pod sync in which the observed container for the
desired container `bar` of pod `foo.test` (arbitrary runtime id, name
string and attempt uuid; the sandbox also observed) decodes to a hash
that differs from the hash of the current spec (and is not the "no hash"
marker 0), or decodes to a matching hash but the health check reports
Unhealthy, the sync stops exactly that container and then creates and
starts a replacement: the call sequence is
`list, stop, list, create, start` and the stopped set is exactly the
stale container's id. -/
theorem claim_C2 (appName appId u : String) (hv : Nat)
    (hparse : parseDockerName appName = some ⟨"foo.test", "bar", hv, u⟩) :
    (hv ≠ 0 → hv ≠ HashContainer barC →
      (syncPod defaultCaps podFoo [⟨appId, appName⟩, sandboxFooObs] initState).1.calls =
        ["list", "stop", "list", "create", "start"] ∧
      (syncPod defaultCaps podFoo [⟨appId, appName⟩, sandboxFooObs] initState).1.stopped =
        [appId] ∧
      (syncPod defaultCaps podFoo [⟨appId, appName⟩, sandboxFooObs] initState).1.created =
        [buildDockerName podFoo barC 0]) ∧
    ((hv = 0 ∨ hv = HashContainer barProbeC) →
      (syncPod falseHealthCheckerCaps podFooProbe [⟨appId, appName⟩, sandboxFooObs]
          initState).1.calls = ["list", "stop", "list", "create", "start"] ∧
      (syncPod falseHealthCheckerCaps podFooProbe [⟨appId, appName⟩, sandboxFooObs]
          initState).1.stopped = [appId] ∧
      (syncPod falseHealthCheckerCaps podFooProbe [⟨appId, appName⟩, sandboxFooObs]
          initState).1.created = [buildDockerName podFooProbe barProbeC 0]) := by
  constructor
  · intro h0 hH
    have h0' : (hv == 0) = false := by simpa using h0
    have hH' : (hv == HashContainer barC) = false := by simpa using hH
    simp [syncPod, syncContainers, reapPodContainers, runContainer, createContainer,
      startContainer, listContainers, inspectContainer, killContainer, stopContainer,
      healthy, postStartOf, hparse, h0', hH', parse_sandbox_name, initState,
      show GetPodFullName podFoo = "foo.test" from rfl,
      show podFoo.manifest.uuid = "" from rfl,
      show podFoo.manifest.containers = [barC] from rfl,
      show barC.livenessProbe = none from rfl,
      show barC.lifecycle = none from rfl,
      findPodContainer, List.find?, containerMatches, networkContainerName,
      sandboxFooObs, Option.elim,
      show barC.name = "bar" from rfl]
  · intro _hmatch
    simp [syncPod, syncContainers, reapPodContainers, runContainer, createContainer,
      startContainer, listContainers, inspectContainer, killContainer, stopContainer,
      healthy, postStartOf, hparse, parse_sandbox_name, initState,
      falseHealthCheckerCaps, defaultCaps,
      show GetPodFullName podFooProbe = "foo.test" from rfl,
      show podFooProbe.manifest.uuid = "" from rfl,
      show podFooProbe.manifest.containers = [barProbeC] from rfl,
      show barProbeC.livenessProbe = some ⟨"false"⟩ from rfl,
      show barProbeC.lifecycle = none from rfl,
      findPodContainer, List.find?, containerMatches, networkContainerName,
      sandboxFooObs, Option.elim,
      show barProbeC.name = "bar" from rfl]

/-- Witness for claim C2, at the fixtures of `TestSyncPodBadHash`
(observed name `/k8s--bar.1234--foo.test`, decoded hash 0x1234 = 4660)
and `TestSyncPodUnhealthy` (observed name `/k8s--bar--foo.test`, decoded
hash 0). -/
theorem claim_C2_witness :
    (syncPod defaultCaps podFoo [⟨"1234", "/k8s--bar.1234--foo.test"⟩, sandboxFooObs]
        initState).1.calls = ["list", "stop", "list", "create", "start"] ∧
    (syncPod defaultCaps podFoo [⟨"1234", "/k8s--bar.1234--foo.test"⟩, sandboxFooObs]
        initState).1.stopped = ["1234"] ∧
    (syncPod falseHealthCheckerCaps podFooProbe
        [⟨"1234", "/k8s--bar--foo.test"⟩, sandboxFooObs] initState).1.calls =
      ["list", "stop", "list", "create", "start"] ∧
    (syncPod falseHealthCheckerCaps podFooProbe
        [⟨"1234", "/k8s--bar--foo.test"⟩, sandboxFooObs] initState).1.stopped =
      ["1234"] := by
  have hbad := (claim_C2 "/k8s--bar.1234--foo.test" "1234" "" 4660 (by decide)).1
    (by decide) (by decide)
  have hunh := (claim_C2 "/k8s--bar--foo.test" "1234" "" 0 (by decide)).2 (Or.inl rfl)
  exact ⟨hbad.1, hbad.2.1, hunh.1, hunh.2.1⟩

/-- Claim C3.  A runtime container whose name does not decode under the
agent's naming scheme is never passed to Stop: for every capability set,
snapshot and runtime state, every name in the stop trail after `SyncPods`
decodes (provided the incoming trail does).  In particular, syncing the
empty desired set against an observed list holding one managed app
container, one managed sandbox and one foreign container (scenario S6)
stops exactly the two managed containers and issues exactly two stop
calls — the foreign container is untouched. -/
theorem claim_C3 :
    (∀ (caps : Caps) (pods : List Pod) (st : DockerState), StopsDecoded st →
      StopsDecoded (SyncPods caps pods st).1) ∧
    (SyncPods defaultCaps [] deletesState).1.calls = ["list", "list", "stop", "stop"] ∧
    (SyncPods defaultCaps [] deletesState).1.stopped = ["1234", "9876"] ∧
    "4567" ∉ (SyncPods defaultCaps [] deletesState).1.stopped := by
  refine ⟨fun caps pods st h => ?_, by decide, by decide, by decide⟩
  unfold SyncPods
  simp only [listContainers]
  exact stopsDecoded_syncPodsLoop caps _ _ _
    (stopsDecoded_killUndesired _ _ _ (fun n hn => h n hn))

/-- Witness for claim C3: the S6 state has an empty stop trail, and
after the sync every stopped name still decodes. -/
theorem claim_C3_witness :
    StopsDecoded deletesState ∧ StopsDecoded (SyncPods defaultCaps [] deletesState).1 :=
  ⟨by decide, claim_C3.1 defaultCaps [] deletesState (by decide)⟩

/-- Claim C6.  The host-port admission filter is idempotent
(`filter (filter S) = filter S` for every snapshot S), order-dependent
(a final pod whose host-ports conflict with the pods already admitted
from S is dropped while every admitted pod is kept unchanged), and the
identity on snapshots whose pods declare pairwise disjoint host-port
sets. -/
theorem claim_C6 :
    (∀ S : List Pod,
      filterHostPortConflicts (filterHostPortConflicts S) = filterHostPortConflicts S) ∧
    (∀ (S : List Pod) (p : Pod),
      conflictsWith (allHostPorts (filterHostPortConflicts S)) p = true →
      filterHostPortConflicts (S ++ [p]) = filterHostPortConflicts S) ∧
    (∀ S : List Pod, S.Pairwise PortsDisjoint → filterHostPortConflicts S = S) := by
  refine ⟨fun S => filterAux_idem S [], fun S p h => ?_,
    fun S h => filterAux_no_conflicts S [] (by simp) h⟩
  have hap := filterAux_append_last p S []
  simp only [List.nil_append] at hap
  simp only [filterHostPortConflicts] at h ⊢
  rw [hap, if_pos h]
  simp

/-- Witness for claim C6, at the two fixtures of
`TestCheckHostPortConflicts`: ports 80, 81, 82 plus a conflicting 81
(dropped), and the conflict-free success case (unchanged). -/
theorem claim_C6_witness :
    filterHostPortConflicts
        (filterHostPortConflicts
          [hostPortPod 80, hostPortPod 81, hostPortPod 82, hostPortPod 81]) =
      filterHostPortConflicts
        [hostPortPod 80, hostPortPod 81, hostPortPod 82, hostPortPod 81] ∧
    filterHostPortConflicts
        ([hostPortPod 80, hostPortPod 81, hostPortPod 82] ++ [hostPortPod 81]) =
      filterHostPortConflicts [hostPortPod 80, hostPortPod 81, hostPortPod 82] ∧
    filterHostPortConflicts [hostPortPod 80, hostPortPod 81, hostPortPod 82] =
      [hostPortPod 80, hostPortPod 81, hostPortPod 82] :=
  ⟨claim_C6.1 _, claim_C6.2.1 _ _ (by decide), claim_C6.2.2 _ (by decide)⟩

/-- Claim C8.  `GetContainerInfo` and `RunInContainer` resolve the
runtime container by listing the runtime's containers and decoding their
names; whenever no listed container matches the given
`(pod-fullname, uid, container-name)`, both make exactly the one List
call and return no result with a not-found error. -/
theorem claim_C8 (caps : Caps) (st : DockerState) (podFullName uid cname : String)
    (cmd : List String)
    (h : findPodContainer st.containers podFullName uid cname = none) :
    (GetContainerInfo caps st podFullName uid cname).1.calls = st.calls ++ ["list"] ∧
    (GetContainerInfo caps st podFullName uid cname).2 =
      .error ("failed to find container " ++ cname) ∧
    (RunInContainer caps st podFullName uid cname cmd).1.calls = st.calls ++ ["list"] ∧
    (RunInContainer caps st podFullName uid cname cmd).2 =
      .error ("failed to find container " ++ cname) := by
  simp [GetContainerInfo, RunInContainer, listContainers, h]

/-- Witness for claim C8, at the fixtures of
`TestGetContainerInfoOnNonExistContainer` and
`TestRunInContainerNoSuchPod`: an empty runtime container list never
matches. -/
theorem claim_C8_witness :
    findPodContainer initState.containers "qux" "" "foo" = none ∧
    (GetContainerInfo defaultCaps initState "qux" "" "foo").2 =
      .error ("failed to find container " ++ "foo") ∧
    (RunInContainer defaultCaps initState "qux" "" "foo" ["ls"]).2 =
      .error ("failed to find container " ++ "foo") :=
  ⟨by decide, (claim_C8 defaultCaps initState "qux" "" "foo" ["ls"] (by decide)).2.1,
    (claim_C8 defaultCaps initState "qux" "" "foo" ["ls"] (by decide)).2.2.2⟩

/-- Claim C9, amended.  `makePortsAndBindings` produces, for every
declared port of every container spec, a binding-map entry keyed
`<containerPort>/<protocol>`; the protocols `tcp` and `udp` are kept
(case-insensitively) and any other protocol value, the empty string
included, collapses to `tcp`; no error is possible.  Entries are one per
distinct key — ports declaring the same `(containerPort, protocol)` key
share one entry — and when the keys are distinct, as in the concrete
four-port fixture of `TestMakePortsAndBindings`, each entry carries
exactly its port's declared HostPort and HostIp values. -/
theorem claim_C9 :
    (∀ (c : Container), ∀ p ∈ c.ports,
      (lookupBinding (makePortsAndBindings c).2 (portKey p)).isSome = true) ∧
    (makePortsAndBindings portsC).2 =
      [("80/tcp", [⟨"8080", "127.0.0.1"⟩]), ("443/tcp", [⟨"443", ""⟩]),
       ("444/udp", [⟨"444", ""⟩]), ("445/tcp", [⟨"445", ""⟩])] ∧
    normalizeProtocol "tcp" = "tcp" ∧ normalizeProtocol "udp" = "udp" ∧
    normalizeProtocol "TCP" = "tcp" ∧ normalizeProtocol "foobar" = "tcp" ∧
    normalizeProtocol "" = "tcp" := by
  refine ⟨?_, by decide, by decide, by decide, by decide, by decide, by decide⟩
  intro c p hp
  exact bindings_key_mem p c.ports ([], []) (Or.inl hp)

/-- Witness for claim C9, at the first declared port of the
`TestMakePortsAndBindings` fixture. -/
theorem claim_C9_witness :
    (lookupBinding (makePortsAndBindings portsC).2
      (portKey ⟨80, 8080, "127.0.0.1", ""⟩)).isSome = true :=
  claim_C9.1 portsC ⟨80, 8080, "127.0.0.1", ""⟩ (by decide)
